import Mathlib

/-!
Verification development for the covrd-api recipe-ingestion pipeline.

The definitions below are a shallow embedding of the Python sources:
- `scripts/data_ingestion/base_ingester.py` (`BaseIngester`)
- `scripts/fix_dietary_flags.py` (`DietaryFlagFixer`)
- `scripts/data_ingestion/themealdb_ingester.py` (`TheMealDBIngester`)

Python strings become `String`, dictionaries with fixed keys become
structures, `None`-able values become `Option`, machine integers that are
only ever incremented or compared become `Nat`.  Python's substring test
(`kw in text`) is embedded as `strContains`; `str.lower()` as a
character-wise ASCII lowering (the keyword lists and the theorem inputs
are ASCII, so this agrees with Python on everything considered here).
-/

set_option maxRecDepth 4000

/-- `listIsPrefixOf pat s` : is `pat` a prefix of `s` (over `List Char`). -/
def listIsPrefixOf : List Char → List Char → Bool
  | [], _ => true
  | _ :: _, [] => false
  | a :: as, b :: bs => a == b && listIsPrefixOf as bs

/-- `listContains pat s` : does `pat` occur as a contiguous sublist of `s`?
This is Python's `pat in s` on strings, over `List Char`. -/
def listContains (pat : List Char) : List Char → Bool
  | [] => listIsPrefixOf pat []
  | c :: rest => listIsPrefixOf pat (c :: rest) || listContains pat rest

/-- Python's `pat in text` substring test. -/
def strContains (text pat : String) : Bool :=
  listContains pat.toList text.toList

/-- Python's `str.lower()` (ASCII case folding): lower every character. -/
def lowerStr (s : String) : String := String.mk (s.toList.map Char.toLower)

/-- Python's `any(word in text for word in words)`. -/
def anyKeywordIn (words : List String) (text : String) : Bool :=
  words.any (fun w => strContains text w)

/-- One entry of a recipe's ingredient list: `{"name": ..., "amount": ...}`. -/
structure Ingredient where
  name : String
  amount : String
deriving DecidableEq

/-- The eight boolean dietary flags returned by `detect_dietary_restrictions`. -/
structure DietaryFlags where
  is_vegetarian : Bool
  is_vegan : Bool
  is_gluten_free : Bool
  is_dairy_free : Bool
  is_nut_free : Bool
  is_low_carb : Bool
  is_keto : Bool
  is_paleo : Bool
deriving DecidableEq

/-- `" ".join(ingredient.get("name", "").lower() for ingredient in ingredients)` -/
def ingredientText (ingredients : List Ingredient) : String :=
  String.intercalate " " (ingredients.map (fun i => lowerStr i.name))

namespace BaseIngester

def meat_keywords : List String := [
  "beef", "chicken", "pork", "lamb", "turkey", "duck", "goose", "rabbit", "venison",
  "veal", "mutton", "goat", "meat", "steak", "ground beef", "oxtail", "ribs", "brisket",
  "chuck", "sirloin", "tenderloin", "flank", "drumstick", "thigh", "breast", "wing",
  "leg", "shoulder", "loin", "bacon", "ham", "sausage", "salami", "pepperoni",
  "prosciutto", "pancetta", "chorizo", "pastrami", "corned beef", "hot dog", "bratwurst",
  "mortadella", "capicola", "bresaola", "kielbasa", "fish", "salmon", "tuna", "cod",
  "halibut", "tilapia", "sea bass", "trout", "mackerel", "sardine", "anchovy", "herring",
  "sole", "flounder", "snapper", "shrimp", "crab", "lobster", "scallop", "mussel",
  "clam", "oyster", "squid", "octopus", "calamari", "prawns", "crawfish", "crayfish",
  "chicken breast", "chicken thigh", "chicken wing", "whole chicken", "turkey breast",
  "ground turkey", "duck breast", "duck leg", "liver", "kidney", "heart", "tongue",
  "brain", "sweetbread", "tripe", "blood sausage", "boudin", "haggis", "chicken stock",
  "beef stock", "bone broth", "chicken broth", "beef broth", "demi-glace", "meat stock",
  "fish stock", "seafood stock"]

def dairy_keywords : List String := [
  "milk", "cheese", "butter", "cream", "yogurt", "yoghurt", "whole milk", "skim milk",
  "2% milk", "1% milk", "buttermilk", "goat milk", "sheep milk", "buffalo milk",
  "condensed milk", "evaporated milk", "powdered milk", "dry milk", "milk powder",
  "cheddar", "mozzarella", "parmesan", "parmigiano", "pecorino", "ricotta",
  "cottage cheese", "cream cheese", "feta", "goat cheese", "blue cheese", "brie",
  "camembert", "swiss", "gruyere", "gouda", "provolone", "manchego", "asiago",
  "gorgonzola", "roquefort", "mascarpone", "boursin", "queso", "paneer", "halloumi",
  "heavy cream", "whipping cream", "light cream", "half and half", "sour cream",
  "crème fraîche", "whipped cream", "clotted cream", "double cream", "single cream",
  "greek yogurt", "plain yogurt", "vanilla yogurt", "frozen yogurt", "kefir", "labneh",
  "skyr", "salted butter", "unsalted butter", "clarified butter", "ghee",
  "cultured butter", "butter substitute", "ice cream", "gelato", "sorbet",
  "frozen custard", "sherbet", "milkshake", "milk shake", "casein", "whey", "lactose",
  "milk solids", "milk protein", "sodium caseinate", "calcium caseinate", "lactalbumin",
  "lactoglobulin", "milk fat", "butterfat", "white sauce", "béchamel", "alfredo",
  "carbonara sauce", "cheese sauce", "cream sauce", "ranch dressing", "caesar dressing"]

def gluten_keywords : List String := [
  "flour", "wheat", "wheat flour", "all-purpose flour", "bread flour", "cake flour",
  "pastry flour", "self-rising flour", "whole wheat", "durum wheat", "semolina",
  "bulgur", "wheat bran", "wheat germ", "spelt", "kamut", "einkorn", "emmer", "farro",
  "barley", "rye", "triticale", "malt", "malted barley", "malt extract", "malt syrup",
  "malt vinegar", "malted milk", "beer", "ale", "lager", "bread", "white bread",
  "whole grain bread", "sourdough", "bagel", "english muffin", "baguette", "ciabatta",
  "focaccia", "pita", "naan", "tortilla", "wrap", "roll", "bun", "croissant", "brioche",
  "breadcrumbs", "bread crumbs", "panko", "croutons", "pasta", "spaghetti", "linguine",
  "fettuccine", "penne", "rigatoni", "macaroni", "fusilli", "farfalle", "ravioli",
  "tortellini", "gnocchi", "lasagna", "noodles", "egg noodles", "ramen", "udon", "soba",
  "couscous", "orzo", "cake", "cookies", "crackers", "muffins", "donuts", "doughnuts",
  "pastry", "pie crust", "pizza dough", "biscuits", "scones", "pretzels", "wafers",
  "cereal", "granola", "muesli", "oats", "oatmeal", "rolled oats", "steel cut oats",
  "barley", "wheat berries", "soy sauce", "tamari", "teriyaki", "hoisin sauce",
  "oyster sauce", "worcestershire", "miso", "seitan", "vital wheat gluten",
  "modified food starch", "hydrolyzed wheat protein", "textured vegetable protein",
  "tvp", "breading", "battered", "tempura", "flour tortilla", "graham crackers", "matzo",
  "communion wafer"]

def nut_keywords : List String := [
  "almond", "almonds", "brazil nut", "brazil nuts", "cashew", "cashews", "hazelnut",
  "hazelnuts", "macadamia", "macadamias", "pecan", "pecans", "pine nut", "pine nuts",
  "pistachio", "pistachios", "walnut", "walnuts", "chestnut", "chestnuts", "beech nut",
  "beech nuts", "hickory nut", "black walnut", "english walnut", "peanut", "peanuts",
  "groundnut", "groundnuts", "monkey nut", "almond butter", "peanut butter",
  "cashew butter", "hazelnut butter", "walnut butter", "pecan butter",
  "pistachio butter", "tahini", "sunflower seed butter", "sunbutter", "almond oil",
  "walnut oil", "hazelnut oil", "peanut oil", "groundnut oil", "argan oil",
  "almond flour", "almond meal", "hazelnut flour", "walnut flour", "pecan flour",
  "chestnut flour", "coconut flour", "almond milk", "cashew milk", "hazelnut milk",
  "walnut milk", "macadamia milk", "pecan milk", "pistachio milk", "coconut",
  "coconut oil", "coconut milk", "coconut cream", "coconut flour", "desiccated coconut",
  "coconut flakes", "coconut butter", "coconut meat", "sesame", "sesame seeds",
  "sesame oil", "sunflower seeds", "pumpkin seeds", "poppy seeds", "chia seeds",
  "flax seeds", "hemp seeds", "marzipan", "nougat", "praline", "gianduja", "nutella",
  "amaretto", "frangelico", "orgeat", "natural flavoring", "artificial flavoring",
  "nut extract", "almond extract", "vanilla extract"]

/-- `BaseIngester.detect_dietary_restrictions` from
`scripts/data_ingestion/base_ingester.py`, lines 54-249. -/
def detect_dietary_restrictions (ingredients : List Ingredient) : DietaryFlags :=
  let ingredient_text := ingredientText ingredients
  let has_meat := anyKeywordIn meat_keywords ingredient_text
  let has_dairy := anyKeywordIn dairy_keywords ingredient_text
  let has_gluten := anyKeywordIn gluten_keywords ingredient_text
  let has_nuts := anyKeywordIn nut_keywords ingredient_text
  { is_vegetarian := !has_meat
    is_vegan := !has_meat && !has_dairy
    is_gluten_free := !has_gluten
    is_dairy_free := !has_dairy
    is_nut_free := !has_nuts
    is_low_carb := false
    is_keto := false
    is_paleo := !has_dairy && !has_gluten }

end BaseIngester

namespace DietaryFlagFixer

def meat_keywords : List String := [
  "beef", "chicken", "pork", "lamb", "turkey", "duck", "goose", "rabbit", "venison",
  "veal", "mutton", "goat", "meat", "steak", "ground beef", "oxtail", "ribs", "brisket",
  "chuck", "sirloin", "tenderloin", "flank", "drumstick", "thigh", "breast", "wing",
  "leg", "shoulder", "loin", "bacon", "ham", "sausage", "salami", "pepperoni",
  "prosciutto", "pancetta", "chorizo", "pastrami", "corned beef", "hot dog", "bratwurst",
  "mortadella", "capicola", "bresaola", "kielbasa", "fish", "salmon", "tuna", "cod",
  "halibut", "tilapia", "sea bass", "trout", "mackerel", "sardine", "anchovy", "herring",
  "sole", "flounder", "snapper", "shrimp", "crab", "lobster", "scallop", "mussel",
  "clam", "oyster", "squid", "octopus", "calamari", "prawns", "crawfish", "crayfish",
  "chicken breast", "chicken thigh", "chicken wing", "whole chicken", "turkey breast",
  "ground turkey", "duck breast", "duck leg", "liver", "kidney", "heart", "tongue",
  "brain", "sweetbread", "tripe", "blood sausage", "boudin", "haggis", "chicken stock",
  "beef stock", "bone broth", "chicken broth", "beef broth", "demi-glace", "meat stock",
  "fish stock", "seafood stock"]

def dairy_keywords : List String := [
  "milk", "cheese", "butter", "cream", "yogurt", "yoghurt", "whole milk", "skim milk",
  "2% milk", "1% milk", "buttermilk", "goat milk", "sheep milk", "buffalo milk",
  "condensed milk", "evaporated milk", "powdered milk", "dry milk", "milk powder",
  "cheddar", "mozzarella", "parmesan", "parmigiano", "pecorino", "ricotta",
  "cottage cheese", "cream cheese", "feta", "goat cheese", "blue cheese", "brie",
  "camembert", "swiss", "gruyere", "gouda", "provolone", "manchego", "asiago",
  "gorgonzola", "roquefort", "mascarpone", "boursin", "queso", "paneer", "halloumi",
  "heavy cream", "whipping cream", "light cream", "half and half", "sour cream",
  "crème fraîche", "whipped cream", "clotted cream", "double cream", "single cream",
  "greek yogurt", "plain yogurt", "vanilla yogurt", "frozen yogurt", "kefir", "labneh",
  "skyr", "salted butter", "unsalted butter", "clarified butter", "ghee",
  "cultured butter", "butter substitute", "ice cream", "gelato", "sorbet",
  "frozen custard", "sherbet", "milkshake", "milk shake", "casein", "whey", "lactose",
  "milk solids", "milk protein", "sodium caseinate", "calcium caseinate", "lactalbumin",
  "lactoglobulin", "milk fat", "butterfat", "white sauce", "béchamel", "alfredo",
  "carbonara sauce", "cheese sauce", "cream sauce", "ranch dressing", "caesar dressing"]

def gluten_keywords : List String := [
  "flour", "wheat", "wheat flour", "all-purpose flour", "bread flour", "cake flour",
  "pastry flour", "self-rising flour", "whole wheat", "durum wheat", "semolina",
  "bulgur", "wheat bran", "wheat germ", "spelt", "kamut", "einkorn", "emmer", "farro",
  "barley", "rye", "triticale", "malt", "malted barley", "malt extract", "malt syrup",
  "malt vinegar", "malted milk", "beer", "ale", "lager", "bread", "white bread",
  "whole grain bread", "sourdough", "bagel", "english muffin", "baguette", "ciabatta",
  "focaccia", "pita", "naan", "tortilla", "wrap", "roll", "bun", "croissant", "brioche",
  "breadcrumbs", "bread crumbs", "panko", "croutons", "pasta", "spaghetti", "linguine",
  "fettuccine", "penne", "rigatoni", "macaroni", "fusilli", "farfalle", "ravioli",
  "tortellini", "gnocchi", "lasagna", "noodles", "egg noodles", "ramen", "udon", "soba",
  "couscous", "orzo", "cake", "cookies", "crackers", "muffins", "donuts", "doughnuts",
  "pastry", "pie crust", "pizza dough", "biscuits", "scones", "pretzels", "wafers",
  "cereal", "granola", "muesli", "oats", "oatmeal", "rolled oats", "steel cut oats",
  "barley", "wheat berries", "soy sauce", "tamari", "teriyaki", "hoisin sauce",
  "oyster sauce", "worcestershire", "miso", "seitan", "vital wheat gluten",
  "modified food starch", "hydrolyzed wheat protein", "textured vegetable protein",
  "tvp", "breading", "battered", "tempura", "flour tortilla", "graham crackers", "matzo",
  "communion wafer"]

def nut_keywords : List String := [
  "almond", "almonds", "brazil nut", "brazil nuts", "cashew", "cashews", "hazelnut",
  "hazelnuts", "macadamia", "macadamias", "pecan", "pecans", "pine nut", "pine nuts",
  "pistachio", "pistachios", "walnut", "walnuts", "chestnut", "chestnuts", "beech nut",
  "beech nuts", "hickory nut", "black walnut", "english walnut", "peanut", "peanuts",
  "groundnut", "groundnuts", "monkey nut", "almond butter", "peanut butter",
  "cashew butter", "hazelnut butter", "walnut butter", "pecan butter",
  "pistachio butter", "tahini", "sunflower seed butter", "sunbutter", "almond oil",
  "walnut oil", "hazelnut oil", "peanut oil", "groundnut oil", "argan oil",
  "almond flour", "almond meal", "hazelnut flour", "walnut flour", "pecan flour",
  "chestnut flour", "coconut flour", "almond milk", "cashew milk", "hazelnut milk",
  "walnut milk", "macadamia milk", "pecan milk", "pistachio milk", "coconut",
  "coconut oil", "coconut milk", "coconut cream", "coconut flour", "desiccated coconut",
  "coconut flakes", "coconut butter", "coconut meat", "sesame", "sesame seeds",
  "sesame oil", "sunflower seeds", "pumpkin seeds", "poppy seeds", "chia seeds",
  "flax seeds", "hemp seeds", "marzipan", "nougat", "praline", "gianduja", "nutella",
  "amaretto", "frangelico", "orgeat", "natural flavoring", "artificial flavoring",
  "nut extract", "almond extract", "vanilla extract"]

/-- `DietaryFlagFixer.detect_dietary_restrictions` from
`scripts/fix_dietary_flags.py`, lines 43-238. -/
def detect_dietary_restrictions (ingredients : List Ingredient) : DietaryFlags :=
  let ingredient_text := ingredientText ingredients
  let has_meat := anyKeywordIn meat_keywords ingredient_text
  let has_dairy := anyKeywordIn dairy_keywords ingredient_text
  let has_gluten := anyKeywordIn gluten_keywords ingredient_text
  let has_nuts := anyKeywordIn nut_keywords ingredient_text
  { is_vegetarian := !has_meat
    is_vegan := !has_meat && !has_dairy
    is_gluten_free := !has_gluten
    is_dairy_free := !has_dairy
    is_nut_free := !has_nuts
    is_low_carb := false
    is_keto := false
    is_paleo := !has_dairy && !has_gluten }

end DietaryFlagFixer

/-- Claim C1: for every ingredient list, the DietaryFlags returned by the
Dietary Classifier (both the ingestion-time and the reclassification-time
copy) satisfy `is_vegan = true → is_vegetarian = true`. -/
theorem c1_vegan_implies_vegetarian (ingredients : List Ingredient)
    (hb : (BaseIngester.detect_dietary_restrictions ingredients).is_vegan = true) :
    (BaseIngester.detect_dietary_restrictions ingredients).is_vegetarian = true ∧
    ∀ ings2 : List Ingredient,
      (DietaryFlagFixer.detect_dietary_restrictions ings2).is_vegan = true →
      (DietaryFlagFixer.detect_dietary_restrictions ings2).is_vegetarian = true := by
  constructor
  · simp only [BaseIngester.detect_dietary_restrictions, Bool.and_eq_true] at hb ⊢
    exact hb.1
  · intro ings2 h2
    simp only [DietaryFlagFixer.detect_dietary_restrictions, Bool.and_eq_true] at h2 ⊢
    exact h2.1

/-- Witness for C1 at a concrete input: the single-ingredient list
`[{name := "water", amount := "1 cup"}]` is classified vegan, hence
also vegetarian. -/
theorem c1_vegan_implies_vegetarian_witness :
    (BaseIngester.detect_dietary_restrictions [⟨"water", "1 cup"⟩]).is_vegan = true ∧
    ((BaseIngester.detect_dietary_restrictions [⟨"water", "1 cup"⟩]).is_vegetarian = true ∧
     ∀ ings2 : List Ingredient,
       (DietaryFlagFixer.detect_dietary_restrictions ings2).is_vegan = true →
       (DietaryFlagFixer.detect_dietary_restrictions ings2).is_vegetarian = true) :=
  ⟨by decide, c1_vegan_implies_vegetarian [⟨"water", "1 cup"⟩] (by decide)⟩

/-- Claim C3 counterexample (negation of the claim): the ingestion-time
classifier and the reclassification-time classifier are the same function —
the two keyword-set revisions in the source are character-for-character
identical, so there is no ingredient list on which they disagree. -/
theorem c3_classifiers_not_different :
    BaseIngester.detect_dietary_restrictions = DietaryFlagFixer.detect_dietary_restrictions :=
  rfl

/-- Claim C3 (amended): the ingestion-time classifier
(`BaseIngester.detect_dietary_restrictions`) and the reclassification-time
classifier (`DietaryFlagFixer.detect_dietary_restrictions`) are extensionally
equal — they return the same DietaryFlags on every ingredient list, and the
four keyword lists coincide pairwise between the two code paths. -/
theorem c3_classifiers_agree :
    (∀ ingredients : List Ingredient,
      BaseIngester.detect_dietary_restrictions ingredients =
        DietaryFlagFixer.detect_dietary_restrictions ingredients) ∧
    BaseIngester.meat_keywords = DietaryFlagFixer.meat_keywords ∧
    BaseIngester.dairy_keywords = DietaryFlagFixer.dairy_keywords ∧
    BaseIngester.gluten_keywords = DietaryFlagFixer.gluten_keywords ∧
    BaseIngester.nut_keywords = DietaryFlagFixer.nut_keywords :=
  ⟨fun _ => rfl, rfl, rfl, rfl, rfl⟩

/-- Helper: `l.any p = false` exactly when `p` is false on every member. -/
theorem anyEqFalseIff {α : Type} (p : α → Bool) (l : List α) :
    l.any p = false ↔ ∀ x ∈ l, p x = false := by
  induction l with
  | nil => simp
  | cons a as ih => simp [List.any_cons, ih]

/-- The all-"free" DietaryFlags record the classifier yields on unmatched input. -/
def allFreeFlags : DietaryFlags :=
  { is_vegetarian := true, is_vegan := true, is_gluten_free := true,
    is_dairy_free := true, is_nut_free := true,
    is_low_carb := false, is_keto := false, is_paleo := true }

/-- Claim C8: on the empty ingredient list, and on every ingredient list whose
concatenated case-folded name text contains no keyword from any of the four
keyword sets, the Classifier returns `true` for `is_vegetarian`, `is_vegan`,
`is_gluten_free`, `is_dairy_free`, `is_nut_free` and `is_paleo`, and `false`
for `is_low_carb` and `is_keto`; moreover `is_low_carb = is_keto = false` for
every input whatsoever. -/
theorem c8_unmatched_input_all_free (ingredients : List Ingredient)
    (hnone : ∀ kw ∈ BaseIngester.meat_keywords ++ BaseIngester.dairy_keywords ++
        BaseIngester.gluten_keywords ++ BaseIngester.nut_keywords,
      strContains (ingredientText ingredients) kw = false) :
    BaseIngester.detect_dietary_restrictions ingredients = allFreeFlags ∧
    BaseIngester.detect_dietary_restrictions [] = allFreeFlags ∧
    ∀ ings2 : List Ingredient,
      (BaseIngester.detect_dietary_restrictions ings2).is_low_carb = false ∧
      (BaseIngester.detect_dietary_restrictions ings2).is_keto = false := by
  refine ⟨?_, by decide, fun _ => ⟨rfl, rfl⟩⟩
  have hm : anyKeywordIn BaseIngester.meat_keywords (ingredientText ingredients) = false := by
    rw [anyKeywordIn, anyEqFalseIff]
    intro kw hkw
    exact hnone kw (by simp [hkw])
  have hd : anyKeywordIn BaseIngester.dairy_keywords (ingredientText ingredients) = false := by
    rw [anyKeywordIn, anyEqFalseIff]
    intro kw hkw
    exact hnone kw (by simp [hkw])
  have hg : anyKeywordIn BaseIngester.gluten_keywords (ingredientText ingredients) = false := by
    rw [anyKeywordIn, anyEqFalseIff]
    intro kw hkw
    exact hnone kw (by simp [hkw])
  have hn : anyKeywordIn BaseIngester.nut_keywords (ingredientText ingredients) = false := by
    rw [anyKeywordIn, anyEqFalseIff]
    intro kw hkw
    exact hnone kw (by simp [hkw])
  simp [BaseIngester.detect_dietary_restrictions, hm, hd, hg, hn, allFreeFlags]

/-- Witness for C8 at a concrete input: the one-ingredient list with name
"water" matches no keyword, and the classifier yields the all-free flags. -/
theorem c8_unmatched_input_all_free_witness :
    (∀ kw ∈ BaseIngester.meat_keywords ++ BaseIngester.dairy_keywords ++
        BaseIngester.gluten_keywords ++ BaseIngester.nut_keywords,
      strContains (ingredientText [⟨"water", "1 cup"⟩]) kw = false) ∧
    (BaseIngester.detect_dietary_restrictions [⟨"water", "1 cup"⟩] = allFreeFlags ∧
     BaseIngester.detect_dietary_restrictions [] = allFreeFlags ∧
     ∀ ings2 : List Ingredient,
       (BaseIngester.detect_dietary_restrictions ings2).is_low_carb = false ∧
       (BaseIngester.detect_dietary_restrictions ings2).is_keto = false) :=
  ⟨by decide, c8_unmatched_input_all_free [⟨"water", "1 cup"⟩] (by decide)⟩

/-- Drop the literal `lit` from the front of `s`; `none` when `s` does not
start with `lit`. -/
def dropLitChars : List Char → List Char → Option (List Char)
  | [], s => some s
  | _ :: _, [] => none
  | a :: as, b :: bs => if a == b then dropLitChars as bs else none

/-- Consume a maximal run of decimal digits (the greedy `\d+` of the pattern),
accumulating the number they denote onto `acc`. -/
def readDigits (acc : Nat) : List Char → Nat × List Char
  | [] => (acc, [])
  | c :: cs => if c.isDigit then readDigits (10 * acc + (c.toNat - 48)) cs else (acc, c :: cs)

/-- One attempted match of the pattern `(\d+)\s*(minute|hour)` at the head of
`s`: on success returns `(value, unit-multiplier)` (1 for "minute", 60 for
"hour") and the remaining input after the match. -/
def tryTimeMatch : List Char → Option ((Nat × Nat) × List Char)
  | [] => none
  | c :: cs =>
    if c.isDigit then
      match readDigits (c.toNat - 48) cs with
      | (n, rest) =>
        let rest2 := rest.dropWhile Char.isWhitespace
        match dropLitChars "minute".toList rest2 with
        | some r => some ((n, 1), r)
        | none =>
          match dropLitChars "hour".toList rest2 with
          | some r => some ((n, 60), r)
          | none => none
    else none

theorem readDigits_length (cs : List Char) :
    ∀ acc, (readDigits acc cs).2.length ≤ cs.length := by
  induction cs with
  | nil => intro acc; simp [readDigits]
  | cons c cs ih =>
    intro acc
    simp only [readDigits]
    split
    · exact le_trans (ih _) (Nat.le_succ _)
    · simp

theorem dropWhileLength {α : Type} (p : α → Bool) (l : List α) :
    (l.dropWhile p).length ≤ l.length := by
  induction l with
  | nil => simp [List.dropWhile]
  | cons a as ih =>
    simp only [List.dropWhile]
    split
    · exact le_trans ih (Nat.le_succ _)
    · simp

theorem dropLitChars_length :
    ∀ (lit s r : List Char), dropLitChars lit s = some r → r.length ≤ s.length := by
  intro lit
  induction lit with
  | nil =>
    intro s r h
    simp only [dropLitChars, Option.some.injEq] at h
    exact h ▸ le_refl _
  | cons a as ih =>
    intro s r h
    cases s with
    | nil => simp [dropLitChars] at h
    | cons b bs =>
      simp only [dropLitChars] at h
      split at h
      · exact le_trans (ih bs r h) (Nat.le_succ _)
      · exact absurd h (by simp)

theorem tryTimeMatch_length :
    ∀ (s : List Char) (p : Nat × Nat) (r : List Char),
      tryTimeMatch s = some (p, r) → r.length < s.length := by
  intro s p r h
  cases s with
  | nil => simp [tryTimeMatch] at h
  | cons c cs =>
    simp only [tryTimeMatch] at h
    split at h
    case isTrue =>
      revert h
      cases hrd : readDigits (c.toNat - 48) cs with
      | mk n rest =>
        intro h
        have hrest : rest.length ≤ cs.length := by
          have := readDigits_length cs (c.toNat - 48)
          rw [hrd] at this
          exact this
        have hrest2 : (rest.dropWhile Char.isWhitespace).length ≤ cs.length :=
          le_trans (dropWhileLength _ _) hrest
        simp only at h
        split at h
        case h_1 r' hdrop =>
          have : r'.length ≤ (rest.dropWhile Char.isWhitespace).length :=
            dropLitChars_length _ _ _ hdrop
          cases h
          simp only [List.length_cons]
          omega
        case h_2 =>
          split at h
          case h_1 r' hdrop =>
            have : r'.length ≤ (rest.dropWhile Char.isWhitespace).length :=
              dropLitChars_length _ _ _ hdrop
            cases h
            simp only [List.length_cons]
            omega
          case h_2 => exact absurd h (by simp)
    case isFalse => exact absurd h (by simp)

/-- Scanner worker for `re.findall(r'(\d+)\s*(minute|hour)', text)`: scan left
to right, attempting a match at each position; on success resume after the
match (non-overlapping), on failure advance one character.  The `fuel`
argument only makes the recursion structural; by `tryTimeMatch_length` every
step strictly shortens the input, so `fuel = s.length` never runs out
(`findTimeMatchesAux_fuel` below makes this exact). -/
def findTimeMatchesAux : Nat → List Char → List (Nat × Nat)
  | 0, _ => []
  | _ + 1, [] => []
  | fuel + 1, c :: cs =>
    match tryTimeMatch (c :: cs) with
    | some (p, r) => p :: findTimeMatchesAux fuel r
    | none => findTimeMatchesAux fuel cs

theorem findTimeMatchesAux_nil (fuel : Nat) : findTimeMatchesAux fuel [] = [] := by
  cases fuel <;> rfl

/-- Fuel irrelevance: any fuel at least the input length gives the same scan
result, so the scanner is the function it looks like. -/
theorem findTimeMatchesAux_fuel :
    ∀ (n : Nat) (s : List Char), s.length ≤ n → ∀ fuel fuel',
      s.length ≤ fuel → s.length ≤ fuel' →
      findTimeMatchesAux fuel s = findTimeMatchesAux fuel' s := by
  intro n
  induction n with
  | zero =>
    intro s hs fuel fuel' _ _
    have : s = [] := List.length_eq_zero.mp (Nat.le_zero.mp hs)
    subst this
    simp [findTimeMatchesAux_nil]
  | succ n ih =>
    intro s hs fuel fuel' h h'
    cases s with
    | nil => simp [findTimeMatchesAux_nil]
    | cons c cs =>
      cases fuel with
      | zero => exact absurd h (by simp)
      | succ f =>
        cases fuel' with
        | zero => exact absurd h' (by simp)
        | succ f' =>
          simp only [findTimeMatchesAux]
          cases htm : tryTimeMatch (c :: cs) with
          | some pr =>
            cases pr with
            | mk p r =>
              have hr : r.length < (c :: cs).length := tryTimeMatch_length _ _ _ htm
              have hrn : r.length ≤ n := by
                simp only [List.length_cons] at hr hs
                omega
              have hrf : r.length ≤ f := by
                simp only [List.length_cons] at hr h
                omega
              have hrf' : r.length ≤ f' := by
                simp only [List.length_cons] at hr h'
                omega
              simp [ih r hrn f f' hrf hrf']
          | none =>
            have hcn : cs.length ≤ n := by
              simp only [List.length_cons] at hs
              omega
            have hcf : cs.length ≤ f := by
              simp only [List.length_cons] at h
              omega
            have hcf' : cs.length ≤ f' := by
              simp only [List.length_cons] at h'
              omega
            exact ih cs hcn f f' hcf hcf'

/-- Python's `re.findall(r'(\d+)\s*(minute|hour)', text)`, each match returned
as `(value, unit-multiplier)` (1 for "minute", 60 for "hour"). -/
def findTimeMatches (s : List Char) : List (Nat × Nat) :=
  findTimeMatchesAux s.length s

/-- `sum(int(num) * (60 if unit.startswith('hour') else 1) for num, unit in time_matches)` -/
def totalMentionedTime (ms : List (Nat × Nat)) : Nat :=
  (ms.map (fun m => m.1 * m.2)).sum

namespace BaseIngester

/-- `prep_time = max(5, num_ingredients * 2)` — the prep baseline. -/
def basePrepTime (num_ingredients : Nat) : Nat := max 5 (num_ingredients * 2)

/-- `cook_time` after the two additive method adjustments:
start at 15, `+20` when bake/roast/oven appears, `+30` when
simmer/slow/braise appears (in the lowered instruction text). -/
def cookAfterMethods (t : String) : Nat :=
  (15 + (if anyKeywordIn ["bake", "roast", "oven"] t then 20 else 0)) +
    (if anyKeywordIn ["simmer", "slow", "braise"] t then 30 else 0)

/-- `prep_time` after the marinate/chill/refrigerate adjustment (`+30`). -/
def prepAfterChill (t : String) (num_ingredients : Nat) : Nat :=
  basePrepTime num_ingredients +
    (if anyKeywordIn ["marinate", "chill", "refrigerate"] t then 30 else 0)

/-- `any(word in instruction_text for word in ["quick", "fast", "minutes"])` -/
def hasQuickWord (t : String) : Bool := anyKeywordIn ["quick", "fast", "minutes"] t

/-- `cook_time` after the quick/fast/minutes adjustment:
`cook_time = max(10, cook_time - 10)` when present. -/
def cookAfterQuick (t : String) : Nat :=
  if hasQuickWord t then max 10 (cookAfterMethods t - 10) else cookAfterMethods t

/-- `prep_time` after the quick/fast/minutes adjustment:
`prep_time = max(5, prep_time - 5)` when present. -/
def prepAfterQuick (t : String) (num_ingredients : Nat) : Nat :=
  if hasQuickWord t then max 5 (prepAfterChill t num_ingredients - 5)
  else prepAfterChill t num_ingredients

/-- `cook_time` after the explicit time-mention override:
`if time_matches: cook_time = max(cook_time, total_mentioned_time)`. -/
def cookWithTimeMentions (t : String) : Nat :=
  let tm := findTimeMatches t.toList
  if tm = [] then cookAfterQuick t
  else max (cookAfterQuick t) (totalMentionedTime tm)

/-- The record returned by `estimate_cooking_times`. -/
structure TimeEstimate where
  prep_time_minutes : Nat
  cook_time_minutes : Nat
  total_time_minutes : Nat
deriving DecidableEq

/-- `BaseIngester.estimate_cooking_times` from
`scripts/data_ingestion/base_ingester.py`, lines 251-288.  The final clamps
are `min(prep_time, 60)`, `min(cook_time, 180)` and
`min(prep_time + cook_time, 240)` — note that the total is computed from the
un-clamped `prep_time` and `cook_time`. -/
def estimate_cooking_times (instructions : String) (num_ingredients : Nat) : TimeEstimate :=
  let instruction_text := lowerStr instructions
  { prep_time_minutes := min (prepAfterQuick instruction_text num_ingredients) 60
    cook_time_minutes := min (cookWithTimeMentions instruction_text) 180
    total_time_minutes :=
      min (prepAfterQuick instruction_text num_ingredients +
        cookWithTimeMentions instruction_text) 240 }

end BaseIngester

/-- Claim C2 counterexample: at `ingredient_count = 100` and the empty
instruction text (which contains no cooking-method keyword and no time
mention), `estimate_cooking_times` returns prep = 60 and cook = 15 as the
claim states, but total = 215, not 75: the final total clamp
`min(prep_time + cook_time, 240)` is applied to the un-clamped
`prep_time = 200`, not to the returned `prep = 60`. -/
theorem c2_hundred_ingredients_total_not_75 :
    BaseIngester.estimate_cooking_times "" 100 =
      ⟨60, 15, 215⟩ ∧
    (BaseIngester.estimate_cooking_times "" 100).total_time_minutes ≠ 75 := by
  constructor
  · decide
  · decide

/-- Claim C2 (amended): for `ingredient_count = 100` and every instruction
text containing no cooking-method or adjustment keyword and no explicit time
mention, `estimate_cooking_times` returns `prep_time_minutes = 60` (clamped),
`cook_time_minutes = 15`, and `total_time_minutes = 215` — the total clamp is
`min(unclamped prep + unclamped cook, 240) = min(200 + 15, 240)`, not
`prep + cook = 75`. -/
theorem c2_hundred_ingredients_estimate (instructions : String)
    (h1 : anyKeywordIn ["bake", "roast", "oven"] (lowerStr instructions) = false)
    (h2 : anyKeywordIn ["simmer", "slow", "braise"] (lowerStr instructions) = false)
    (h3 : anyKeywordIn ["marinate", "chill", "refrigerate"] (lowerStr instructions) = false)
    (h4 : BaseIngester.hasQuickWord (lowerStr instructions) = false)
    (h5 : findTimeMatches (lowerStr instructions).toList = []) :
    BaseIngester.estimate_cooking_times instructions 100 = ⟨60, 15, 215⟩ := by
  simp only [String.toList] at h5
  simp [BaseIngester.estimate_cooking_times, BaseIngester.prepAfterQuick, h4,
    BaseIngester.prepAfterChill, h3, BaseIngester.basePrepTime,
    BaseIngester.cookWithTimeMentions, h5, BaseIngester.cookAfterQuick,
    BaseIngester.cookAfterMethods, h1, h2]

/-- Witness for C2 (amended) at the empty instruction text. -/
theorem c2_hundred_ingredients_estimate_witness :
    anyKeywordIn ["bake", "roast", "oven"] (lowerStr "") = false ∧
    anyKeywordIn ["simmer", "slow", "braise"] (lowerStr "") = false ∧
    anyKeywordIn ["marinate", "chill", "refrigerate"] (lowerStr "") = false ∧
    BaseIngester.hasQuickWord (lowerStr "") = false ∧
    findTimeMatches (lowerStr "").toList = [] ∧
    BaseIngester.estimate_cooking_times "" 100 = ⟨60, 15, 215⟩ :=
  ⟨by decide, by decide, by decide, by decide, by decide,
    c2_hundred_ingredients_estimate "" (by decide) (by decide) (by decide)
      (by decide) (by decide)⟩

/-- Claim C9 counterexample: the instruction text "a few minutes" with 3
ingredients contains the "minutes" keyword; the code floors the adjusted cook
time at the constant 10 (`max(10, cook_time - 10)`), not at the cook baseline
15, and floors the adjusted prep time at the constant 5, not at the prep
baseline `max(5, 3 * 2) = 6`: the result is cook = 10 < 15 and
prep = 5 < 6. -/
theorem c9_quick_floor_counterexample :
    BaseIngester.estimate_cooking_times "a few minutes" 3 = ⟨5, 10, 15⟩ ∧
    (BaseIngester.estimate_cooking_times "a few minutes" 3).cook_time_minutes < 15 ∧
    (BaseIngester.estimate_cooking_times "a few minutes" 3).prep_time_minutes <
      BaseIngester.basePrepTime 3 := by
  refine ⟨by decide, by decide, by decide⟩

/-- Claim C9 (amended): for every instruction text containing a
quick/fast/minutes keyword, `estimate_cooking_times` subtracts 10 from the
cook estimate flooring at the constant 10 (`max(10, cook - 10)`), and 5 from
the prep estimate flooring at the constant 5 (`max(5, prep - 5)`) — the
floors are the absolute constants 10 and 5, not the cook baseline 15 and not
the prep baseline `max(5, ingredient_count * 2)`; when the text additionally
mentions no explicit times, these adjusted values (clamped) are exactly what
the function returns. -/
theorem c9_quick_adjustment (instructions : String) (n : Nat)
    (hq : BaseIngester.hasQuickWord (lowerStr instructions) = true) :
    BaseIngester.cookAfterQuick (lowerStr instructions) =
      max 10 (BaseIngester.cookAfterMethods (lowerStr instructions) - 10) ∧
    BaseIngester.prepAfterQuick (lowerStr instructions) n =
      max 5 (BaseIngester.prepAfterChill (lowerStr instructions) n - 5) ∧
    10 ≤ BaseIngester.cookAfterQuick (lowerStr instructions) ∧
    5 ≤ BaseIngester.prepAfterQuick (lowerStr instructions) n ∧
    (findTimeMatches (lowerStr instructions).toList = [] →
      BaseIngester.estimate_cooking_times instructions n =
        ⟨min (max 5 (BaseIngester.prepAfterChill (lowerStr instructions) n - 5)) 60,
         min (max 10 (BaseIngester.cookAfterMethods (lowerStr instructions) - 10)) 180,
         min (max 5 (BaseIngester.prepAfterChill (lowerStr instructions) n - 5) +
           max 10 (BaseIngester.cookAfterMethods (lowerStr instructions) - 10)) 240⟩) := by
  refine ⟨?_, ?_, ?_, ?_, ?_⟩
  · simp [BaseIngester.cookAfterQuick, hq]
  · simp [BaseIngester.prepAfterQuick, hq]
  · simp [BaseIngester.cookAfterQuick, hq]
  · simp [BaseIngester.prepAfterQuick, hq]
  · intro h5
    simp only [String.toList] at h5
    simp [BaseIngester.estimate_cooking_times, BaseIngester.cookWithTimeMentions, h5,
      BaseIngester.cookAfterQuick, BaseIngester.prepAfterQuick, hq]

/-- Witness for C9 (amended) at instructions "a few minutes" with 3
ingredients. -/
theorem c9_quick_adjustment_witness :
    BaseIngester.hasQuickWord (lowerStr "a few minutes") = true ∧
    (BaseIngester.cookAfterQuick (lowerStr "a few minutes") =
      max 10 (BaseIngester.cookAfterMethods (lowerStr "a few minutes") - 10) ∧
     BaseIngester.prepAfterQuick (lowerStr "a few minutes") 3 =
      max 5 (BaseIngester.prepAfterChill (lowerStr "a few minutes") 3 - 5) ∧
     10 ≤ BaseIngester.cookAfterQuick (lowerStr "a few minutes") ∧
     5 ≤ BaseIngester.prepAfterQuick (lowerStr "a few minutes") 3 ∧
     (findTimeMatches (lowerStr "a few minutes").toList = [] →
       BaseIngester.estimate_cooking_times "a few minutes" 3 =
         ⟨min (max 5 (BaseIngester.prepAfterChill (lowerStr "a few minutes") 3 - 5)) 60,
          min (max 10 (BaseIngester.cookAfterMethods (lowerStr "a few minutes") - 10)) 180,
          min (max 5 (BaseIngester.prepAfterChill (lowerStr "a few minutes") 3 - 5) +
            max 10 (BaseIngester.cookAfterMethods (lowerStr "a few minutes") - 10)) 240⟩)) :=
  ⟨by decide, c9_quick_adjustment "a few minutes" 3 (by decide)⟩

/-- The fields of a normalized recipe dict that `save_recipe` consults:
`recipe_data.get("external_id")` and `recipe_data.get("external_source")`
(uniqueness key, `None` when absent) and `recipe_data["name"]` (logging). -/
structure RecipeData where
  name : String
  external_id : Option String
  external_source : Option String
deriving DecidableEq

/-- The per-run counters of `BaseIngester.stats` (the two wall-clock
timestamps are omitted from the embedding). -/
structure IngestionStats where
  total_fetched : Nat
  total_processed : Nat
  total_saved : Nat
  total_skipped : Nat
  total_errors : Nat
deriving DecidableEq

/-- The zeroed counters set up by `BaseIngester.__init__`. -/
def initStats : IngestionStats :=
  { total_fetched := 0, total_processed := 0, total_saved := 0,
    total_skipped := 0, total_errors := 0 }

/-- The three ways one `save_recipe` call can end (§4.5 of the spec): the
duplicate-skip path, the successful insert, and the rolled-back write
failure. -/
inductive SaveOutcome
  | Saved
  | SkippedDuplicate
  | Error
deriving DecidableEq

/-- `db.query(Recipe).filter(external_id == ..., external_source == ...).first()`:
the first stored row whose uniqueness key matches `r`. -/
def find_existing (db : List RecipeData) (r : RecipeData) : Option RecipeData :=
  db.find? (fun x => x.external_id == r.external_id && x.external_source == r.external_source)

/-- `BaseIngester.save_recipe` from `scripts/data_ingestion/base_ingester.py`,
lines 323-354, as a transition on the storage list and the stats counters.
`write_fails` models whether the `db.add`/`db.commit` write raises (the
behaviour of the external storage collaborator); on failure the transaction
is rolled back, so the storage list is returned unchanged. -/
def save_recipe (db : List RecipeData) (stats : IngestionStats) (write_fails : Bool)
    (r : RecipeData) : SaveOutcome × List RecipeData × IngestionStats :=
  match find_existing db r with
  | some _ =>
      (.SkippedDuplicate, db, { stats with total_skipped := stats.total_skipped + 1 })
  | none =>
      if write_fails then
        (.Error, db, { stats with total_errors := stats.total_errors + 1 })
      else
        (.Saved, db ++ [r], { stats with total_saved := stats.total_saved + 1 })

/-- The environment's behaviour for one fetched raw record inside
`run_ingestion`'s loop: `normalized = none` models `normalize_recipe`
raising (caught by the per-record `except`), and `write_fails` models the
storage write raising inside `save_recipe`. -/
structure RawOutcome where
  normalized : Option RecipeData
  write_fails : Bool

/-- One iteration of the `for raw_recipe in raw_recipes` loop of
`BaseIngester.run_ingestion` (lines 374-392): a normalization error
increments `total_errors` and moves on; otherwise the record counts as
processed, and (unless `dry_run`) is handed to `save_recipe`. -/
def process_record (dry_run : Bool) (st : List RecipeData × IngestionStats)
    (rec : RawOutcome) : List RecipeData × IngestionStats :=
  match rec.normalized with
  | none => (st.1, { st.2 with total_errors := st.2.total_errors + 1 })
  | some r =>
      let stats1 := { st.2 with total_processed := st.2.total_processed + 1 }
      if dry_run then (st.1, stats1)
      else
        match save_recipe st.1 stats1 rec.write_fails r with
        | (_, db2, stats2) => (db2, stats2)

/-- `BaseIngester.run_ingestion` (lines 356-400) on a fresh ingester:
counters start zeroed, `total_fetched` is set to the number of fetched
records, then the per-record loop runs over all of them. -/
def run_ingestion (dry_run : Bool) (db0 : List RecipeData) (raws : List RawOutcome) :
    List RecipeData × IngestionStats :=
  List.foldl (process_record dry_run)
    (db0, { initStats with total_fetched := raws.length }) raws

/-- Helper: if `r`'s uniqueness key matches nothing in `db`, then after
appending `r` the lookup finds exactly `r`. -/
theorem find_existing_append_self (db : List RecipeData) (r : RecipeData)
    (h : find_existing db r = none) : find_existing (db ++ [r]) r = some r := by
  induction db with
  | nil => simp [find_existing, List.find?]
  | cons a as ih =>
    simp only [find_existing, List.cons_append, List.find?] at h ⊢
    cases hp : (a.external_id == r.external_id && a.external_source == r.external_source) with
    | true => rw [hp] at h; simp at h
    | false =>
      rw [hp] at h
      simp only at h ⊢
      exact ih h

/-- Claim C4: with the `(external_source, external_id)` pair absent from
storage, `save_recipe` returns Saved and appends the row; the immediately
repeated call with the same pair returns SkippedDuplicate and leaves both the
storage and the row count unchanged, so the two calls add exactly one row;
and in full generality a call whose key already matches a stored row is a
SkippedDuplicate that never touches storage, whatever the write behaviour. -/
theorem c4_save_insert_then_skip (db db2 : List RecipeData)
    (stats s2 : IngestionStats) (r x y : RecipeData) (wf : Bool)
    (h : find_existing db r = none) (h2 : find_existing db2 x = some y) :
    save_recipe db stats false r =
      (.Saved, db ++ [r], { stats with total_saved := stats.total_saved + 1 }) ∧
    save_recipe (db ++ [r]) { stats with total_saved := stats.total_saved + 1 } false r =
      (.SkippedDuplicate, db ++ [r],
        { stats with total_saved := stats.total_saved + 1,
                     total_skipped := stats.total_skipped + 1 }) ∧
    (db ++ [r]).length = db.length + 1 ∧
    save_recipe db2 s2 wf x =
      (.SkippedDuplicate, db2, { s2 with total_skipped := s2.total_skipped + 1 }) := by
  refine ⟨?_, ?_, by simp, ?_⟩
  · simp [save_recipe, h]
  · simp [save_recipe, find_existing_append_self db r h]
  · simp [save_recipe, h2]

/-- Witness for C4 at a concrete record against empty storage. -/
theorem c4_save_insert_then_skip_witness :
    find_existing [] ⟨"Test Recipe", some "52772", some "themealdb"⟩ = none ∧
    find_existing [⟨"Other", some "99", some "themealdb"⟩]
      ⟨"Other", some "99", some "themealdb"⟩ =
        some ⟨"Other", some "99", some "themealdb"⟩ ∧
    (save_recipe [] initStats false ⟨"Test Recipe", some "52772", some "themealdb"⟩ =
      (.Saved, [] ++ [⟨"Test Recipe", some "52772", some "themealdb"⟩],
        { initStats with total_saved := initStats.total_saved + 1 }) ∧
     save_recipe ([] ++ [⟨"Test Recipe", some "52772", some "themealdb"⟩])
        { initStats with total_saved := initStats.total_saved + 1 } false
        ⟨"Test Recipe", some "52772", some "themealdb"⟩ =
      (.SkippedDuplicate, [] ++ [⟨"Test Recipe", some "52772", some "themealdb"⟩],
        { initStats with total_saved := initStats.total_saved + 1,
                         total_skipped := initStats.total_skipped + 1 }) ∧
     ([] ++ [(⟨"Test Recipe", some "52772", some "themealdb"⟩ : RecipeData)]).length =
        ([] : List RecipeData).length + 1 ∧
     save_recipe [⟨"Other", some "99", some "themealdb"⟩] initStats true
        ⟨"Other", some "99", some "themealdb"⟩ =
      (.SkippedDuplicate, [⟨"Other", some "99", some "themealdb"⟩],
        { initStats with total_skipped := initStats.total_skipped + 1 })) :=
  ⟨by decide, by decide,
    c4_save_insert_then_skip [] [⟨"Other", some "99", some "themealdb"⟩]
      initStats initStats ⟨"Test Recipe", some "52772", some "themealdb"⟩
      ⟨"Other", some "99", some "themealdb"⟩ ⟨"Other", some "99", some "themealdb"⟩
      true (by decide) (by decide)⟩

/-- Helper: one loop iteration never decreases the error counter. -/
theorem process_record_errors_le (d : Bool) (st : List RecipeData × IngestionStats)
    (rec : RawOutcome) : st.2.total_errors ≤ (process_record d st rec).2.total_errors := by
  cases hn : rec.normalized with
  | none => simp [process_record, hn]
  | some r =>
    simp only [process_record, hn]
    split
    · simp
    · cases hfe : find_existing st.1 r with
      | some x => simp [save_recipe, hfe]
      | none =>
        cases hwf : rec.write_fails with
        | true => simp [save_recipe, hfe, hwf]
        | false => simp [save_recipe, hfe, hwf]

/-- Helper: the loop never decreases the error counter. -/
theorem foldl_errors_le (d : Bool) (l : List RawOutcome) :
    ∀ st : List RecipeData × IngestionStats,
      st.2.total_errors ≤ (List.foldl (process_record d) st l).2.total_errors := by
  induction l with
  | nil => intro st; simp
  | cons a as ih =>
    intro st
    exact le_trans (process_record_errors_le d st a) (ih (process_record d st a))

/-- The run state after processing a first part of the fetched records:
`db0` is the pre-existing storage and `raws` the whole fetched list (which
fixes `total_fetched`). -/
def ingestion_state_after (db0 : List RecipeData) (raws firstPart : List RawOutcome) :
    List RecipeData × IngestionStats :=
  List.foldl (process_record false)
    (db0, { initStats with total_fetched := raws.length }) firstPart

/-- Claim C5: when the storage write raises for one (fresh-keyed) record
mid-run, that iteration rolls the transaction back — the storage list is
unchanged — and increments the error counter by exactly 1 together with the
processed counter; the run is the plain fold over the remaining records, so
the subsequent records are still processed (a per-record error never aborts
the run); and the final statistics satisfy `total_errors ≥ 1`. -/
theorem c5_write_failure_isolated (db0 : List RecipeData)
    (pre post : List RawOutcome) (rec : RawOutcome) (r : RecipeData)
    (hn : rec.normalized = some r) (hw : rec.write_fails = true)
    (hfresh : find_existing (ingestion_state_after db0 (pre ++ rec :: post) pre).1 r = none) :
    process_record false (ingestion_state_after db0 (pre ++ rec :: post) pre) rec =
      ((ingestion_state_after db0 (pre ++ rec :: post) pre).1,
       { (ingestion_state_after db0 (pre ++ rec :: post) pre).2 with
          total_processed :=
            (ingestion_state_after db0 (pre ++ rec :: post) pre).2.total_processed + 1,
          total_errors :=
            (ingestion_state_after db0 (pre ++ rec :: post) pre).2.total_errors + 1 }) ∧
    run_ingestion false db0 (pre ++ rec :: post) =
      List.foldl (process_record false)
        (process_record false (ingestion_state_after db0 (pre ++ rec :: post) pre) rec)
        post ∧
    1 ≤ (run_ingestion false db0 (pre ++ rec :: post)).2.total_errors := by
  have hstep : process_record false (ingestion_state_after db0 (pre ++ rec :: post) pre) rec =
      ((ingestion_state_after db0 (pre ++ rec :: post) pre).1,
       { (ingestion_state_after db0 (pre ++ rec :: post) pre).2 with
          total_processed :=
            (ingestion_state_after db0 (pre ++ rec :: post) pre).2.total_processed + 1,
          total_errors :=
            (ingestion_state_after db0 (pre ++ rec :: post) pre).2.total_errors + 1 }) := by
    simp [process_record, hn, save_recipe, hfresh, hw]
  have hrun : run_ingestion false db0 (pre ++ rec :: post) =
      List.foldl (process_record false)
        (process_record false (ingestion_state_after db0 (pre ++ rec :: post) pre) rec)
        post := by
    simp [run_ingestion, ingestion_state_after, List.foldl_append]
  refine ⟨hstep, hrun, ?_⟩
  rw [hrun]
  calc 1 ≤ (process_record false (ingestion_state_after db0 (pre ++ rec :: post) pre)
              rec).2.total_errors := by rw [hstep]; simp
    _ ≤ _ := foldl_errors_le false post _

/-- Witness for C5: empty pre-existing storage, no earlier records, one
later record that normalizes and saves fine; the failing record's write
raises. -/
theorem c5_write_failure_isolated_witness :
    ((⟨some ⟨"Bad", some "1", some "themealdb"⟩, true⟩ : RawOutcome).normalized =
        some ⟨"Bad", some "1", some "themealdb"⟩) ∧
    ((⟨some ⟨"Bad", some "1", some "themealdb"⟩, true⟩ : RawOutcome).write_fails = true) ∧
    find_existing (ingestion_state_after []
        ([] ++ ⟨some ⟨"Bad", some "1", some "themealdb"⟩, true⟩ ::
          [⟨some ⟨"Good", some "2", some "themealdb"⟩, false⟩]) []).1
      ⟨"Bad", some "1", some "themealdb"⟩ = none ∧
    1 ≤ (run_ingestion false []
        ([] ++ ⟨some ⟨"Bad", some "1", some "themealdb"⟩, true⟩ ::
          [⟨some ⟨"Good", some "2", some "themealdb"⟩, false⟩])).2.total_errors :=
  ⟨rfl, rfl, by decide,
    (c5_write_failure_isolated [] []
      [⟨some ⟨"Good", some "2", some "themealdb"⟩, false⟩]
      ⟨some ⟨"Bad", some "1", some "themealdb"⟩, true⟩
      ⟨"Bad", some "1", some "themealdb"⟩ rfl rfl (by decide)).2.2⟩

/-- Helper: how one loop iteration moves the counters: `total_fetched` is
untouched, `total_processed` grows by at most 1 and never shrinks, and the
growth of `total_saved + total_skipped` is bounded by the growth of
`total_processed`. -/
theorem process_record_counters (d : Bool) (st : List RecipeData × IngestionStats)
    (rec : RawOutcome) :
    (process_record d st rec).2.total_fetched = st.2.total_fetched ∧
    (process_record d st rec).2.total_processed ≤ st.2.total_processed + 1 ∧
    st.2.total_processed ≤ (process_record d st rec).2.total_processed ∧
    (process_record d st rec).2.total_saved + (process_record d st rec).2.total_skipped +
        st.2.total_processed ≤
      st.2.total_saved + st.2.total_skipped + (process_record d st rec).2.total_processed := by
  cases hn : rec.normalized with
  | none => simp [process_record, hn]
  | some r =>
    simp only [process_record, hn]
    split
    · simp
    · cases hfe : find_existing st.1 r with
      | some x => simp [save_recipe, hfe]; omega
      | none =>
        cases hwf : rec.write_fails with
        | true => simp [save_recipe, hfe, hwf]
        | false => simp [save_recipe, hfe, hwf]; omega

/-- Helper: the loop-level consequences of `process_record_counters`. -/
theorem foldl_counters (d : Bool) (l : List RawOutcome) :
    ∀ st : List RecipeData × IngestionStats,
      (List.foldl (process_record d) st l).2.total_fetched = st.2.total_fetched ∧
      (List.foldl (process_record d) st l).2.total_processed ≤
        st.2.total_processed + l.length ∧
      (List.foldl (process_record d) st l).2.total_saved +
          (List.foldl (process_record d) st l).2.total_skipped + st.2.total_processed ≤
        st.2.total_saved + st.2.total_skipped +
          (List.foldl (process_record d) st l).2.total_processed := by
  induction l with
  | nil => intro st; simp
  | cons a as ih =>
    intro st
    simp only [List.foldl_cons, List.length_cons]
    obtain ⟨hf1, hp1, hm1, hs1⟩ := process_record_counters d st a
    obtain ⟨hf2, hp2, hs2⟩ := ih (process_record d st a)
    refine ⟨by rw [hf2, hf1], by omega, by omega⟩

/-- Claim C10: after every complete run, whatever the fetched records, the
per-record outcomes and the dry-run flag, the statistics counters satisfy
`total_processed ≤ total_fetched` and
`total_saved + total_skipped ≤ total_processed`, and every counter is
non-negative (the counters are naturals, only ever incremented). -/
theorem c10_run_stats_invariants (dry_run : Bool) (db0 : List RecipeData)
    (raws : List RawOutcome) :
    (run_ingestion dry_run db0 raws).2.total_processed ≤
      (run_ingestion dry_run db0 raws).2.total_fetched ∧
    (run_ingestion dry_run db0 raws).2.total_saved +
        (run_ingestion dry_run db0 raws).2.total_skipped ≤
      (run_ingestion dry_run db0 raws).2.total_processed ∧
    0 ≤ (run_ingestion dry_run db0 raws).2.total_fetched ∧
    0 ≤ (run_ingestion dry_run db0 raws).2.total_processed ∧
    0 ≤ (run_ingestion dry_run db0 raws).2.total_saved ∧
    0 ≤ (run_ingestion dry_run db0 raws).2.total_skipped ∧
    0 ≤ (run_ingestion dry_run db0 raws).2.total_errors := by
  obtain ⟨hf, hp, hs⟩ := foldl_counters dry_run raws
    (db0, { initStats with total_fetched := raws.length })
  have hzp : ((db0, { initStats with total_fetched := raws.length }) :
      List RecipeData × IngestionStats).2.total_processed = 0 := rfl
  have hzs : ((db0, { initStats with total_fetched := raws.length }) :
      List RecipeData × IngestionStats).2.total_saved = 0 := rfl
  have hzk : ((db0, { initStats with total_fetched := raws.length }) :
      List RecipeData × IngestionStats).2.total_skipped = 0 := rfl
  have hzf : ((db0, { initStats with total_fetched := raws.length }) :
      List RecipeData × IngestionStats).2.total_fetched = raws.length := rfl
  rw [hzp] at hp hs
  rw [hzs, hzk] at hs
  rw [hzf] at hf
  refine ⟨?_, ?_, Nat.zero_le _, Nat.zero_le _, Nat.zero_le _, Nat.zero_le _, Nat.zero_le _⟩
  · show (List.foldl (process_record dry_run)
        (db0, { initStats with total_fetched := raws.length }) raws).2.total_processed ≤
      (List.foldl (process_record dry_run)
        (db0, { initStats with total_fetched := raws.length }) raws).2.total_fetched
    omega
  · show (List.foldl (process_record dry_run)
        (db0, { initStats with total_fetched := raws.length }) raws).2.total_saved +
      (List.foldl (process_record dry_run)
        (db0, { initStats with total_fetched := raws.length }) raws).2.total_skipped ≤
      (List.foldl (process_record dry_run)
        (db0, { initStats with total_fetched := raws.length }) raws).2.total_processed
    omega

/-- The fields of a stored `Recipe` row that the Reclassification Tool reads
and writes: the eight dietary-flag columns, the stored ingredient list
(`ingredients_json`, the empty list standing for a falsy value), and the
`updated_at` timestamp (an abstract tick). -/
structure StoredRecipe where
  name : String
  is_vegetarian : Bool
  is_vegan : Bool
  is_gluten_free : Bool
  is_dairy_free : Bool
  is_nut_free : Bool
  is_low_carb : Bool
  is_keto : Bool
  is_paleo : Bool
  ingredients_json : List Ingredient
  updated_at : Nat
deriving DecidableEq

/-- The 8 entries of the `corrected_flags` dict of
`DietaryFlagFixer.analyze_single_recipe`, in Python dict insertion order. -/
def flagsList (f : DietaryFlags) : List (String × Bool) :=
  [("is_vegetarian", f.is_vegetarian), ("is_vegan", f.is_vegan),
   ("is_gluten_free", f.is_gluten_free), ("is_dairy_free", f.is_dairy_free),
   ("is_nut_free", f.is_nut_free), ("is_low_carb", f.is_low_carb),
   ("is_keto", f.is_keto), ("is_paleo", f.is_paleo)]

/-- `current_flags.get(flag_name)` in `analyze_single_recipe`, lines 251-261:
the `current_flags` dict is built with ONLY the five simple flags, so the
`.get` on `is_low_carb`, `is_keto` and `is_paleo` yields Python `None`
(embedded as `Option.none`). -/
def current_flags_get (rec : StoredRecipe) (flag_name : String) : Option Bool :=
  if flag_name = "is_vegetarian" then some rec.is_vegetarian
  else if flag_name = "is_vegan" then some rec.is_vegan
  else if flag_name = "is_gluten_free" then some rec.is_gluten_free
  else if flag_name = "is_dairy_free" then some rec.is_dairy_free
  else if flag_name = "is_nut_free" then some rec.is_nut_free
  else none

/-- One entry of the `changes` dict: flag name, the old value
(`none` = Python `None`, from a key missing in `current_flags`) and the
new classifier value. -/
structure FlagChange where
  flag : String
  old : Option Bool
  new : Bool
deriving DecidableEq

/-- `DietaryFlagFixer.analyze_single_recipe` from
`scripts/fix_dietary_flags.py`, lines 240-268: falsy `ingredients_json`
short-circuits to no changes; otherwise re-run the classifier and record a
change for every flag whose `current_flags.get` value differs
(`current_value != new_value`, where `None != bool` is true in Python). -/
def analyze_single_recipe (rec : StoredRecipe) : List FlagChange :=
  if rec.ingredients_json = [] then []
  else
    (flagsList (DietaryFlagFixer.detect_dietary_restrictions rec.ingredients_json)).filterMap
      (fun nv =>
        if current_flags_get rec nv.1 ≠ some nv.2 then
          some ⟨nv.1, current_flags_get rec nv.1, nv.2⟩
        else none)

/-- `setattr(db_recipe, flag_name, change["new"])` for the flag columns of the
stored `Recipe` model. -/
def setFlag (rec : StoredRecipe) (flag_name : String) (v : Bool) : StoredRecipe :=
  if flag_name = "is_vegetarian" then { rec with is_vegetarian := v }
  else if flag_name = "is_vegan" then { rec with is_vegan := v }
  else if flag_name = "is_gluten_free" then { rec with is_gluten_free := v }
  else if flag_name = "is_dairy_free" then { rec with is_dairy_free := v }
  else if flag_name = "is_nut_free" then { rec with is_nut_free := v }
  else if flag_name = "is_low_carb" then { rec with is_low_carb := v }
  else if flag_name = "is_keto" then { rec with is_keto := v }
  else if flag_name = "is_paleo" then { rec with is_paleo := v }
  else rec

/-- `DietaryFlagFixer.fix_recipe_flags` from `scripts/fix_dietary_flags.py`,
lines 298-355, restricted to its effect on the stored record: returns the
computed changes and the (possibly updated) stored row.  With no changes, or
in dry-run mode, the row is untouched; otherwise every changed flag is
applied via `setattr` and `updated_at` is stamped with the current time
(`now`). -/
def fix_recipe_flags (rec : StoredRecipe) (dry_run : Bool) (now : Nat) :
    List FlagChange × StoredRecipe :=
  let changes := analyze_single_recipe rec
  if changes = [] then ([], rec)
  else if dry_run then (changes, rec)
  else
    (changes,
     { changes.foldl (fun r c => setFlag r c.flag c.new) rec with updated_at := now })

/-- The stored flag columns of a record, gathered as a DietaryFlags value:
this is what "the stored flags" means in a field-by-field comparison with the
re-run Classifier's output. -/
def storedFlags (rec : StoredRecipe) : DietaryFlags :=
  { is_vegetarian := rec.is_vegetarian, is_vegan := rec.is_vegan,
    is_gluten_free := rec.is_gluten_free, is_dairy_free := rec.is_dairy_free,
    is_nut_free := rec.is_nut_free, is_low_carb := rec.is_low_carb,
    is_keto := rec.is_keto, is_paleo := rec.is_paleo }

/-- A persisted record wrongly flagged vegan whose stored ingredients include
"chicken stock" (the C6 scenario). -/
def chickenStockRecipe : StoredRecipe :=
  { name := "Faux Vegan Soup", is_vegetarian := true, is_vegan := true,
    is_gluten_free := true, is_dairy_free := true, is_nut_free := true,
    is_low_carb := false, is_keto := false, is_paleo := true,
    ingredients_json := [⟨"chicken stock", "2 cups"⟩], updated_at := 0 }

/-- A persisted record whose stored flags agree exactly with the re-run
Classifier's output on its ingredients — a field-by-field diff is empty. -/
def waterRecipe : StoredRecipe :=
  { name := "Water", is_vegetarian := true, is_vegan := true,
    is_gluten_free := true, is_dairy_free := true, is_nut_free := true,
    is_low_carb := false, is_keto := false, is_paleo := true,
    ingredients_json := [⟨"water", "1 cup"⟩], updated_at := 0 }

/-- Claim C6: on the chicken-stock record the diff does report
`is_vegetarian: true→false` and `is_vegan: true→false`, dry-run leaves the
stored record unchanged, and non-dry-run updates those two flags and
`updated_at` — but the computed diff is NOT the field-by-field comparison of
stored flags against the re-run Classifier's output: `current_flags` is built
with only five keys, so `is_low_carb`, `is_keto` and `is_paleo` compare
against Python `None` and are reported as changes on every record with a
nonempty ingredient list.  On `waterRecipe`, whose stored flags equal the
classifier output exactly (field-by-field diff would be empty), the code
still reports three changes and a non-dry-run rewrites the row, stamping
`updated_at`. -/
theorem c6_diff_includes_phantom_flags :
    analyze_single_recipe chickenStockRecipe =
      [⟨"is_vegetarian", some true, false⟩, ⟨"is_vegan", some true, false⟩,
       ⟨"is_low_carb", none, false⟩, ⟨"is_keto", none, false⟩,
       ⟨"is_paleo", none, true⟩] ∧
    fix_recipe_flags chickenStockRecipe true 7 =
      ([⟨"is_vegetarian", some true, false⟩, ⟨"is_vegan", some true, false⟩,
        ⟨"is_low_carb", none, false⟩, ⟨"is_keto", none, false⟩,
        ⟨"is_paleo", none, true⟩], chickenStockRecipe) ∧
    (fix_recipe_flags chickenStockRecipe false 7).2 =
      { chickenStockRecipe with is_vegetarian := false, is_vegan := false,
                                updated_at := 7 } ∧
    storedFlags waterRecipe =
      DietaryFlagFixer.detect_dietary_restrictions waterRecipe.ingredients_json ∧
    analyze_single_recipe waterRecipe =
      [⟨"is_low_carb", none, false⟩, ⟨"is_keto", none, false⟩,
       ⟨"is_paleo", none, true⟩] ∧
    (fix_recipe_flags waterRecipe false 5).2.updated_at = 5 ∧
    waterRecipe.updated_at = 0 := by
  refine ⟨by decide, by decide, by decide, by decide, by decide, by decide, by decide⟩

/-- A raw TheMealDB record, reduced to the field the dedup step consults:
`recipe.get("idMeal")` (Python `None` when absent). -/
structure RawMeal where
  idMeal : Option String
deriving DecidableEq

/-- The dedup loop of `TheMealDBIngester.fetch_recipes`
(`scripts/data_ingestion/themealdb_ingester.py`, lines 144-151): walk the
aggregate list keeping a `seen_ids` set; the first occurrence of each
`idMeal` wins. -/
def dedupByIdAux (seen : List (Option String)) : List RawMeal → List RawMeal
  | [] => []
  | r :: rest =>
    if seen.contains r.idMeal then dedupByIdAux seen rest
    else r :: dedupByIdAux (r.idMeal :: seen) rest

/-- `unique_recipes` after the dedup loop, starting from an empty `seen_ids`. -/
def dedupById (rs : List RawMeal) : List RawMeal := dedupByIdAux [] rs

/-- The truncation step (lines 153-155): `if limit: unique = unique[:limit]`.
Python truthiness makes both `None` and `0` skip the truncation. -/
def applyLimit (limit : Option Nat) (rs : List RawMeal) : List RawMeal :=
  match limit with
  | some l => if l ≠ 0 then rs.take l else rs
  | none => rs

/-- The pure tail of `TheMealDBIngester.fetch_recipes` applied to the
aggregate `all_recipes` list (the network aggregation that builds
`all_recipes` is abstracted as this input): dedup by `idMeal`
(first occurrence wins), then truncate to `limit`. -/
def fetch_postprocess (limit : Option Nat) (all_recipes : List RawMeal) : List RawMeal :=
  applyLimit limit (dedupById all_recipes)

/-- Claim C7 counterexample: at `limit = 0` the Python guard `if limit:` is
falsy, so no truncation happens and the fetch result is NOT "at most limit
elements": one record survives a limit of 0. -/
theorem c7_limit_zero_not_truncated :
    fetch_postprocess (some 0) [⟨some "1"⟩] = [⟨some "1"⟩] ∧
    ¬ (fetch_postprocess (some 0) [⟨some "1"⟩]).length ≤ 0 := by
  refine ⟨by decide, by decide⟩

/-- Claim C7 (amended): for every NONZERO limit, the fetch result is the
aggregate list deduplicated by source identifier (first occurrence wins) and
then truncated to at most `limit` elements; in particular when dedup leaves
45 records and `limit = 30`, exactly 30 records are returned.  (For
`limit = 0` the Python truthiness check skips truncation, as for `None`.) -/
theorem c7_dedup_then_truncate (l : Nat) (all_recipes : List RawMeal) (hl : l ≠ 0) :
    fetch_postprocess (some l) all_recipes = (dedupById all_recipes).take l ∧
    (fetch_postprocess (some l) all_recipes).length ≤ l ∧
    ((dedupById all_recipes).length = 45 →
      (fetch_postprocess (some 30) all_recipes).length = 30) := by
  refine ⟨by simp [fetch_postprocess, applyLimit, hl], ?_, ?_⟩
  · simp [fetch_postprocess, applyLimit, hl]
  · intro h45
    simp [fetch_postprocess, applyLimit, List.length_take, h45]

/-- A concrete aggregate fetch result: 45 raw records with pairwise distinct
source identifiers, so dedup leaves all 45. -/
def fortyFiveRawMeals : List RawMeal := (List.range 45).map (fun i => ⟨some (toString i)⟩)

/-- Witness for C7 (amended) at `limit = 30` over a 45-record (post-dedup)
aggregate: exactly 30 records are returned. -/
theorem c7_dedup_then_truncate_witness :
    (30 : Nat) ≠ 0 ∧
    (dedupById fortyFiveRawMeals).length = 45 ∧
    (fetch_postprocess (some 30) fortyFiveRawMeals).length = 30 :=
  ⟨by decide, by decide,
    (c7_dedup_then_truncate 30 fortyFiveRawMeals (by decide)).2.2 (by decide)⟩
